import Mathlib

/-!
Verification of the synthetic data-generation pipeline of the
aws-agent-inter-operability-repo repository (the `data-stack` generators:
`CustomerGenerator`, `TitleGenerator`, `CampaignGenerator`,
`TelemetryGenerator` and the orchestrating `DataGenerator`).

The Python sources are shallowly embedded as follows.

* Machine floats become exact rationals (`ℚ`); the one construct that is
  genuinely transcendental (the Gaussian-shaped hour-of-day weight curve,
  built from `np.exp`) is embedded over `ℝ` with `Real.exp`.
* Every random draw of the source (`random.random()`, `random.randint`,
  `random.choice`, `random.sample`, `random.uniform`, `np.random.choice`,
  `np.random.poisson`, `Faker` calls, `uuid.uuid4()`) becomes an explicit
  input to the embedded function: a rational in `[0,1)` for a uniform draw,
  a natural number for an integer draw, a string for an entropy/Faker-derived
  value.  A function of these inputs is exactly the deterministic function
  the Python code computes once the underlying RNG streams are fixed.
* Fallible operations (pandas `.sample(1)` on a possibly-empty frame,
  `dict[...]` lookups, `np.random.choice` with exhausted probability mass,
  `random.sample` with an oversized count) return `Option`, with `none` for
  the raising branch.
* `np.random.choice(outcomes, p=weights)` draws a uniform `u ∈ [0,1)` and
  returns the first outcome whose cumulative weight strictly exceeds `u`
  (numpy searches the cdf with side `right`); `weightedChoice` below embeds
  precisely that.
* Where a distribution itself is the object of a claim (campaign targeting
  fields), the sampling procedure is additionally embedded as a finite
  weighted outcome list (`Dist`), with weights computed compositionally.
-/

namespace AcmeGen

/-- Zero-padding decimal format of width six, embedding the Python
format specifier `{n:06d}` used in generated id strings. -/
def pad6 (n : ℕ) : String :=
  let s := toString n
  String.mk (List.replicate (6 - s.length) '0') ++ s

/-- Embeds `random.choice(seq)` / `df.sample(1)` driven by an integer draw
`r`: pick index `r % length`, failing (`none`) on an empty sequence exactly as
the Python calls raise there. -/
def sampleList (l : List α) (r : ℕ) : Option α :=
  l[r % l.length]?

/-- Embeds `faker.date_time_between(a, b)` (and `date_between`): a draw that
lands uniformly in the closed range `[a, b]`, here driven by the integer draw
`r`. -/
def dtBetween (a b : ℕ) (r : ℕ) : ℕ :=
  a + r % (b - a + 1)

/-- Embeds `random.uniform(a, b) = a + (b - a) * random.random()`, with the
unit draw `u` passed explicitly. -/
def uniformQ (a b u : ℚ) : ℚ :=
  a + (b - a) * u

/-- Cumulative scan of `np.random.choice(outcomes, p=weights)`: return the
first outcome whose cumulative weight (starting from `acc`) strictly exceeds
the uniform draw `u`. -/
def weightedChoiceGo (u : ℚ) : ℚ → List (α × ℚ) → Option α
  | _, [] => none
  | acc, (a, w) :: rest => if u < acc + w then some a else weightedChoiceGo u (acc + w) rest

/-- Embeds `np.random.choice(outcomes, p=weights)` for a fixed uniform draw
`u ∈ [0,1)`: outcomes are paired with their probability weights. -/
def weightedChoice (l : List (α × ℚ)) (u : ℚ) : Option α :=
  weightedChoiceGo u 0 l

/-- Total probability mass of a weighted outcome list. -/
def sumWeights (l : List (α × ℚ)) : ℚ :=
  (l.map Prod.snd).sum

theorem weightedChoiceGo_eq_none {u acc : ℚ} {l : List (α × ℚ)}
    (h : weightedChoiceGo u acc l = none) : l = [] ∨ acc + sumWeights l ≤ u := by
  induction l generalizing acc with
  | nil => exact Or.inl rfl
  | cons p rest ih =>
    right
    simp only [weightedChoiceGo] at h
    split at h
    · exact absurd h (by simp)
    · rename_i hlt
      rcases ih h with h0 | h0
      · subst h0
        simp only [sumWeights, List.map_cons, List.map_nil, List.sum_cons, List.sum_nil, add_zero]
        linarith [not_lt.mp hlt]
      · simp only [sumWeights, List.map_cons, List.sum_cons] at h0 ⊢
        linarith

theorem weightedChoice_isSome {l : List (α × ℚ)} {u : ℚ}
    (hne : l ≠ []) (hu : u < sumWeights l) : (weightedChoice l u).isSome := by
  cases h : weightedChoice l u with
  | some a => rfl
  | none =>
    rcases weightedChoiceGo_eq_none h with h0 | h0
    · exact absurd h0 hne
    · rw [zero_add] at h0
      exact absurd hu (not_lt.mpr h0)

theorem weightedChoiceGo_mem {u acc : ℚ} {l : List (α × ℚ)} {a : α}
    (h : weightedChoiceGo u acc l = some a) : a ∈ l.map Prod.fst := by
  induction l generalizing acc with
  | nil => simp [weightedChoiceGo] at h
  | cons p rest ih =>
    simp only [weightedChoiceGo] at h
    split at h
    · simp only [Option.some.injEq] at h
      subst h
      simp
    · simpa using Or.inr (ih h)

theorem weightedChoice_mem {l : List (α × ℚ)} {u : ℚ} {a : α}
    (h : weightedChoice l u = some a) : a ∈ l.map Prod.fst :=
  weightedChoiceGo_mem h

/-- Selection core of `random.sample(population, k)`: repeatedly draw an index
from the remaining population (the integer draw `r` supplies successive
indices by division) and remove the chosen element. -/
def sampleKAux : ℕ → List α → ℕ → List α
  | 0, _, _ => []
  | _ + 1, [], _ => []
  | k + 1, a :: l, r =>
    let len := l.length + 1
    let i := r % len
    (a :: l).getD i a :: sampleKAux k ((a :: l).eraseIdx i) (r / len)

/-- Embeds `random.sample(population, k)`: `k` distinct elements drawn without
replacement, raising (`none`) when `k` exceeds the population size exactly as
the Python call does. -/
def sampleK (k : ℕ) (l : List α) (r : ℕ) : Option (List α) :=
  if l.length < k then none else some (sampleKAux k l r)

/-- Embeds the round-half-to-even tie-breaking of the Python built-in
`round` on an exact rational. -/
def roundHalfEven (x : ℚ) : ℤ :=
  let n := ⌊x⌋
  let f := x - n
  if f < 1 / 2 then n else if 1 / 2 < f then n + 1 else if Even n then n else n + 1

/-- Embeds `round(x, 2)`. -/
def round2 (x : ℚ) : ℚ :=
  (roundHalfEven (x * 100) : ℚ) / 100

/-- Embeds `round(x, 4)`. -/
def round4 (x : ℚ) : ℚ :=
  (roundHalfEven (x * 10000) : ℚ) / 10000

theorem roundHalfEven_ge_floor (x : ℚ) : ⌊x⌋ ≤ roundHalfEven x := by
  unfold roundHalfEven
  simp only []
  split
  · exact le_refl _
  · split
    · linarith
    · split
      · exact le_refl _
      · linarith

theorem round2_ge_of_le {a : ℤ} {x : ℚ} (h : (a : ℚ) ≤ x) : (a : ℚ) ≤ round2 x := by
  have h100 : (100 * a : ℤ) ≤ ⌊x * 100⌋ := by
    rw [Int.le_floor]
    push_cast
    linarith
  have h2 : (100 * a : ℤ) ≤ roundHalfEven (x * 100) :=
    le_trans h100 (roundHalfEven_ge_floor _)
  unfold round2
  rw [le_div_iff₀ (by norm_num : (0:ℚ) < 100)]
  have h3 : ((100 * a : ℤ) : ℚ) ≤ ((roundHalfEven (x * 100) : ℤ) : ℚ) := Int.cast_le.mpr h2
  push_cast at h3
  linarith

end AcmeGen

namespace AcmeGen

/-- Subscription tiers of `CustomerGenerator.subscription_tiers` (the four
dict keys).  Modelled as an inductive type because every table of the
generators is keyed by exactly these four values. -/
inductive Tier
  | free_with_ads
  | basic
  | standard
  | premium
deriving DecidableEq

/-- Monthly price of each tier (`subscription_tiers[tier]["price"]`). -/
def tierPrice : Tier → ℚ
  | .free_with_ads => 0
  | .basic => 8.99
  | .standard => 13.99
  | .premium => 19.99

/-- Selection weights of `subscription_tiers` (`weight` entries, in dict
order). -/
def subscriptionTiersW : List (Tier × ℚ) :=
  [(.free_with_ads, 0.4), (.basic, 0.3), (.standard, 0.2), (.premium, 0.1)]

/-- The `age_groups` weight table of `CustomerGenerator`. -/
def ageGroupsW : List (String × ℚ) :=
  [("18-24", 0.15), ("25-34", 0.25), ("35-44", 0.25), ("45-54", 0.20),
   ("55-64", 0.10), ("65+", 0.05)]

/-- The `age_ranges` table of `CustomerGenerator._get_age_from_group`; a dict
lookup, so `none` embeds the `KeyError` branch. -/
def ageRange : String → Option (ℕ × ℕ)
  | "18-24" => some (18, 24)
  | "25-34" => some (25, 34)
  | "35-44" => some (35, 44)
  | "45-54" => some (45, 54)
  | "55-64" => some (55, 64)
  | "65+" => some (65, 80)
  | _ => none

/-- The `payment_methods` weight table. -/
def paymentMethodsW : List (String × ℚ) :=
  [("credit_card", 0.6), ("debit_card", 0.2), ("paypal", 0.15),
   ("apple_pay", 0.03), ("google_pay", 0.02)]

/-- The `acquisition_channels` weight table. -/
def acquisitionChannelsW : List (String × ℚ) :=
  [("organic_search", 0.25), ("social_media", 0.20), ("referral", 0.15),
   ("paid_search", 0.15), ("email", 0.10), ("partner", 0.10), ("other", 0.05)]

/-- Country weights of `countries_data`. -/
def countriesW : List (String × ℚ) :=
  [("United States", 0.35), ("Canada", 0.10), ("United Kingdom", 0.15),
   ("Germany", 0.10), ("France", 0.08), ("Japan", 0.07), ("Australia", 0.08),
   ("Brazil", 0.07)]

/-- State lists of `countries_data` (dict lookup). -/
def statesOf : String → Option (List String)
  | "United States" => some ["California", "Texas", "New York", "Florida", "Illinois"]
  | "Canada" => some ["Ontario", "Quebec", "British Columbia", "Alberta"]
  | "United Kingdom" => some ["England", "Scotland", "Wales", "Northern Ireland"]
  | "Germany" => some ["Bavaria", "Berlin", "Hamburg", "Hesse"]
  | "France" => some ["Ile-de-France", "Provence", "Normandy", "Brittany"]
  | "Japan" => some ["Tokyo", "Osaka", "Kyoto", "Hokkaido"]
  | "Australia" => some ["New South Wales", "Victoria", "Queensland", "Western Australia"]
  | "Brazil" => some ["Sao Paulo", "Rio de Janeiro", "Minas Gerais", "Bahia"]
  | _ => none

/-- The fixed genre list shared by `CustomerGenerator.genres`. -/
def genresList : List String :=
  ["Action", "Comedy", "Drama", "Horror", "Sci-Fi", "Romance",
   "Thriller", "Documentary", "Animation", "Fantasy", "Crime", "Mystery"]

/-- The `timezone_map` of `_get_timezone`, with its `"UTC"` default
(`dict.get(country, "UTC")`). -/
def timezoneOf (country : String) : String :=
  if country = "United States" then "America/New_York"
  else if country = "Canada" then "America/Toronto"
  else if country = "United Kingdom" then "Europe/London"
  else if country = "Germany" then "Europe/Berlin"
  else if country = "France" then "Europe/Paris"
  else if country = "Japan" then "Asia/Tokyo"
  else if country = "Australia" then "Australia/Sydney"
  else if country = "Brazil" then "America/Sao_Paulo"
  else "UTC"

/-- Tier-specific churn probability of `generate_customer` (the
`if/elif` chain at lines 100-107). -/
def churnProbability : Tier → ℚ
  | .free_with_ads => 0.3
  | .basic => 0.2
  | .standard => 0.1
  | .premium => 0.05

/-- One generated customer row of `CustomerGenerator.generate_customer`.
Times are epoch seconds (`ℕ`). -/
structure Customer where
  customer_id : String
  email : String
  first_name : String
  last_name : String
  date_of_birth : ℕ
  age_group : String
  subscription_tier : Tier
  subscription_start_date : ℕ
  subscription_end_date : Option ℕ
  country : String
  state : String
  city : String
  timezone : String
  payment_method : String
  monthly_revenue : ℚ
  lifetime_value : ℚ
  is_active : Bool
  acquisition_channel : String
  preferred_genres : List String
  created_at : ℕ
  updated_at : ℕ
deriving DecidableEq

/-- The random draws consumed by one `generate_customer` call, in source
order.  Fields `email`, `firstName`, `lastName`, `city` carry the values the
seeded `Faker` instance returns; they are seed-derived like the rest of this
structure.  The `uuid.uuid4()` value that prefixes `customer_id` is NOT part
of this structure: it is process entropy, not a function of the seed, and is
passed to `generateCustomer` separately. -/
structure CustomerDraws where
  uAge : ℚ
  rAgeInGroup : ℕ
  uCountry : ℚ
  rState : ℕ
  uTier : ℚ
  uPayment : ℚ
  uAcq : ℚ
  rStart : ℕ
  uChurn : ℚ
  rEnd : ℕ
  rGenresK : ℕ
  rGenresSample : ℕ
  rUpd : ℕ
  email : String
  firstName : String
  lastName : String
  city : String
deriving DecidableEq

/-- Seconds in three years of 365 days, the span of the Faker period
`"-3y"` used for `subscription_start`. -/
def threeYears : ℕ := 3 * 365 * 86400

/-- Embedding of `CustomerGenerator.generate_customer(customer_index)`.
`uuidStr` is the `str(uuid.uuid4())` value drawn for `customer_id` (process
entropy, independent of the seed); `now` is `datetime.now()` in epoch
seconds; `d` carries all draws of the seeded RNG streams. -/
def generateCustomer (customerIndex : ℕ) (d : CustomerDraws) (uuidStr : String)
    (now : ℕ) : Option Customer := do
  let customerId := "CUST_" ++ uuidStr.take 8 ++ "_" ++ pad6 customerIndex
  let ageGroup ← weightedChoice ageGroupsW d.uAge
  let range ← ageRange ageGroup
  let age := range.1 + d.rAgeInGroup % (range.2 - range.1 + 1)
  let dateOfBirth := now - age * 365 * 86400
  let country ← weightedChoice countriesW d.uCountry
  let states ← statesOf country
  let state ← sampleList states d.rState
  let tier ← weightedChoice subscriptionTiersW d.uTier
  let paymentMethod ← weightedChoice paymentMethodsW d.uPayment
  let acquisitionChannel ← weightedChoice acquisitionChannelsW d.uAcq
  let subscriptionStart := dtBetween (now - threeYears) now d.rStart
  let churnProb := churnProbability tier
  let isActive : Bool := decide (churnProb < d.uChurn)
  let subscriptionEnd := if isActive then none else
    some (dtBetween subscriptionStart now d.rEnd)
  let monthsActive : ℚ := (((now - subscriptionStart) / 86400 : ℕ) : ℚ) / 30
  let monthlyRevenue := tierPrice tier
  let lifetimeValue := monthlyRevenue * monthsActive
  let preferredGenres ← sampleK (2 + d.rGenresK % 4) genresList d.rGenresSample
  pure {
    customer_id := customerId
    email := d.email
    first_name := d.firstName
    last_name := d.lastName
    date_of_birth := dateOfBirth
    age_group := ageGroup
    subscription_tier := tier
    subscription_start_date := subscriptionStart
    subscription_end_date := subscriptionEnd
    country := country
    state := state
    city := d.city
    timezone := timezoneOf country
    payment_method := paymentMethod
    monthly_revenue := monthlyRevenue
    lifetime_value := lifetimeValue
    is_active := isActive
    acquisition_channel := acquisitionChannel
    preferred_genres := preferredGenres
    created_at := subscriptionStart
    updated_at := dtBetween subscriptionStart now d.rUpd }

theorem dtBetween_le_right {a b : ℕ} (r : ℕ) (h : a ≤ b) : dtBetween a b r ≤ b := by
  unfold dtBetween
  have : r % (b - a + 1) ≤ b - a := Nat.lt_succ_iff.mp (Nat.mod_lt _ (Nat.succ_pos _))
  omega

theorem dtBetween_ge_left (a b r : ℕ) : a ≤ dtBetween a b r :=
  Nat.le_add_right _ _

end AcmeGen

namespace AcmeGen

/-- C7: for every generated customer row, `subscription_end_date` is not
`None` if and only if `is_active` is `False`; when set, the end date lies
between the subscription start date and the generation time `now`. -/
theorem customer_end_date_iff_inactive
    (customerIndex : ℕ) (d : CustomerDraws) (uuidStr : String) (now : ℕ)
    (c : Customer) (h : generateCustomer customerIndex d uuidStr now = some c) :
    (c.subscription_end_date ≠ none ↔ c.is_active = false) ∧
    (∀ e, c.subscription_end_date = some e →
      c.subscription_start_date ≤ e ∧ e ≤ now) := by
  unfold generateCustomer at h
  simp only [bind, Option.bind_eq_some, pure, Option.some.injEq] at h
  obtain ⟨ag, hag, rg, hrg, country, hcountry, sts, hsts, st, hst, tier, htier,
    pm, hpm, aq, haq, pg, hpg, hc⟩ := h
  subst hc
  constructor
  · cases hb : decide (churnProbability tier < d.uChurn) <;> simp [hb]
  · intro e he
    cases hb : decide (churnProbability tier < d.uChurn) <;> rw [hb] at he
    · simp only [if_neg Bool.false_ne_true, Option.some.injEq] at he
      subst he
      refine ⟨dtBetween_ge_left _ _ _, dtBetween_le_right _ ?_⟩
      exact dtBetween_le_right _ (Nat.sub_le _ _)
    · simp at he

/-- Fixed fallback customer record, used only to name the result of a
successful concrete generation below. -/
def fallbackCustomer : Customer :=
  ⟨"", "", "", "", 0, "", .free_with_ads, 0, none, "", "", "", "", "", 0, 0,
   false, "", [], 0, 0⟩

/-- Concrete draw values for one `generate_customer` call; `uChurn = 0.1`
lands below the free-tier churn probability `0.3`, so this customer is
churned and carries an end date. -/
def c7Draws : CustomerDraws :=
  { uAge := 0, rAgeInGroup := 0, uCountry := 0, rState := 0, uTier := 0,
    uPayment := 0, uAcq := 0, rStart := 0, uChurn := 0.1, rEnd := 5,
    rGenresK := 0, rGenresSample := 0, rUpd := 0, email := "a@b.c",
    firstName := "A", lastName := "B", city := "C" }

/-- The customer that `c7Draws` generates. -/
def c7Customer : Customer :=
  (generateCustomer 0 c7Draws "abcd1234" 1700000000).getD fallbackCustomer

/-- Witness for C7 at a concrete input. -/
theorem customer_end_date_iff_inactive_witness :
    (c7Customer.subscription_end_date ≠ none ↔ c7Customer.is_active = false) ∧
    (∀ e, c7Customer.subscription_end_date = some e →
      c7Customer.subscription_start_date ≤ e ∧ e ≤ 1700000000) :=
  customer_end_date_iff_inactive 0 c7Draws "abcd1234" 1700000000 c7Customer (by
    norm_num [generateCustomer, c7Customer, c7Draws, weightedChoice, weightedChoiceGo,
      ageGroupsW, ageRange, countriesW, statesOf, subscriptionTiersW, paymentMethodsW,
      acquisitionChannelsW, sampleList, sampleK, sampleKAux, genresList, dtBetween,
      threeYears, churnProbability, tierPrice, timezoneOf, pad6])

end AcmeGen

namespace AcmeGen

/-- C1 counterexample: the seeded draw stream (`c7Draws`) and the generation
time are held fixed — exactly what an identical seed and identical counts fix
— yet the two runs disagree, because `customer_id` is built from
`str(uuid.uuid4())[:8]` (process entropy that `random.seed`, `np.random.seed`
and `Faker.seed` do not control).  Hence two runs with identical seed and
counts do not produce byte-identical tables. -/
theorem seed_determinism_counterexample :
    (generateCustomer 0 c7Draws "12345678" 1700000000).map (fun c => c.customer_id) ≠
      (generateCustomer 0 c7Draws "87654321" 1700000000).map (fun c => c.customer_id) := by
  have h1 : generateCustomer 0 c7Draws "12345678" 1700000000 =
      some ((generateCustomer 0 c7Draws "12345678" 1700000000).getD fallbackCustomer) := by
    norm_num [generateCustomer, c7Draws, weightedChoice, weightedChoiceGo,
      ageGroupsW, ageRange, countriesW, statesOf, subscriptionTiersW, paymentMethodsW,
      acquisitionChannelsW, sampleList, sampleK, sampleKAux, genresList, dtBetween,
      threeYears, churnProbability, tierPrice, timezoneOf, pad6]
  have h2 : generateCustomer 0 c7Draws "87654321" 1700000000 =
      some ((generateCustomer 0 c7Draws "87654321" 1700000000).getD fallbackCustomer) := by
    norm_num [generateCustomer, c7Draws, weightedChoice, weightedChoiceGo,
      ageGroupsW, ageRange, countriesW, statesOf, subscriptionTiersW, paymentMethodsW,
      acquisitionChannelsW, sampleList, sampleK, sampleKAux, genresList, dtBetween,
      threeYears, churnProbability, tierPrice, timezoneOf, pad6]
  rw [h1, h2]
  simp only [Option.map_some, ne_eq, Option.some.injEq]
  norm_num [generateCustomer, c7Draws, weightedChoice, weightedChoiceGo,
    ageGroupsW, ageRange, countriesW, statesOf, subscriptionTiersW, paymentMethodsW,
    acquisitionChannelsW, sampleList, sampleK, sampleKAux, genresList, dtBetween,
    threeYears, churnProbability, tierPrice, timezoneOf]
  decide

end AcmeGen

namespace AcmeGen

/-- C1 amended: with identical seed and counts the two runs agree on every
field that is derived from the seeded RNG streams and the (fixed) clock; only
the uuid4-derived `customer_id` differs.  Concretely: re-running with the same
seeded draws but a different uuid value yields the same row with only the
`customer_id` field rebuilt from the new uuid. -/
theorem seeded_fields_uuid_independent (customerIndex : ℕ) (d : CustomerDraws)
    (u1 u2 : String) (now : ℕ) (c1 : Customer)
    (h1 : generateCustomer customerIndex d u1 now = some c1) :
    generateCustomer customerIndex d u2 now =
      some { c1 with customer_id := "CUST_" ++ u2.take 8 ++ "_" ++ pad6 customerIndex } := by
  unfold generateCustomer at h1 ⊢
  simp only [bind, Option.bind_eq_some, pure, Option.some.injEq] at h1
  obtain ⟨ag, hag, rg, hrg, country, hcountry, sts, hsts, st, hst, tier, htier,
    pm, hpm, aq, haq, pg, hpg, hc⟩ := h1
  simp only [hag, hrg, hcountry, hsts, hst, htier, hpm, haq, hpg,
    Option.bind_eq_bind, Option.some_bind]
  subst hc
  rfl

/-- Witness for the amended C1 statement at a concrete input. -/
theorem seeded_fields_uuid_independent_witness :
    generateCustomer 0 c7Draws "87654321" 1700000000 =
      some { c7Customer with customer_id := "CUST_" ++ "87654321".take 8 ++ "_" ++ pad6 0 } :=
  seeded_fields_uuid_independent 0 c7Draws "abcd1234" "87654321" 1700000000 c7Customer (by
    norm_num [generateCustomer, c7Customer, c7Draws, weightedChoice, weightedChoiceGo,
      ageGroupsW, ageRange, countriesW, statesOf, subscriptionTiersW, paymentMethodsW,
      acquisitionChannelsW, sampleList, sampleK, sampleKAux, genresList, dtBetween,
      threeYears, churnProbability, tierPrice, timezoneOf, pad6])

end AcmeGen

namespace AcmeGen

/-- Title types of `TitleGenerator.title_types` (movie, series,
documentary), also the keys of `TelemetryGenerator.completion_rates`. -/
inductive TitleType
  | movie
  | series
  | documentary
deriving DecidableEq

/-- The columns of a title row that `TelemetryGenerator` reads
(`title_id`, `genre`, `duration_minutes`, `title_type`). -/
structure Title where
  title_id : String
  title_type : TitleType
  genre : String
  duration_minutes : ℕ
deriving DecidableEq

/-- The `device_types` table of `TelemetryGenerator`: type names with
selection weights. -/
def deviceTypesW : List (String × ℚ) :=
  [("tv", 0.40), ("mobile", 0.30), ("tablet", 0.15), ("web", 0.15)]

/-- Operating-system pools of `device_types[...]["os"]`. -/
def osFor (deviceType : String) : List String :=
  if deviceType = "tv" then ["Roku OS", "Fire TV", "Apple TV", "Android TV", "Smart TV OS"]
  else if deviceType = "mobile" then ["iOS", "Android"]
  else if deviceType = "tablet" then ["iOS", "Android"]
  else if deviceType = "web" then ["Windows", "macOS", "Linux", "ChromeOS"]
  else []

/-- The `quality_by_tier` table: stream-quality weights conditioned on the
subscription tier of the customer, in dict order (SD, HD, 4K). -/
def qualityByTier : Tier → List (String × ℚ)
  | .free_with_ads => [("SD", 0.7), ("HD", 0.3), ("4K", 0.0)]
  | .basic => [("SD", 0.3), ("HD", 0.7), ("4K", 0.0)]
  | .standard => [("SD", 0.1), ("HD", 0.6), ("4K", 0.3)]
  | .premium => [("SD", 0.05), ("HD", 0.35), ("4K", 0.6)]

/-- The `bandwidth_ranges` table (a dict lookup keyed by quality). -/
def bandwidthRanges (quality : String) : Option (ℚ × ℚ) :=
  if quality = "SD" then some (2, 5)
  else if quality = "HD" then some (5, 10)
  else if quality = "4K" then some (15, 30)
  else none

/-- The `connection_types` weight table. -/
def connectionTypesW : List (String × ℚ) :=
  [("fiber", 0.25), ("cable", 0.35), ("dsl", 0.20), ("mobile", 0.15),
   ("satellite", 0.05)]

/-- The `isps` list. -/
def isps : List String :=
  ["Comcast", "AT&T", "Verizon", "Spectrum", "Cox", "CenturyLink",
   "Frontier", "Optimum", "Mediacom", "Windstream"]

/-- The `app_versions` list. -/
def appVersions : List String :=
  ["5.2.1", "5.2.0", "5.1.9", "5.1.8", "5.0.0", "4.9.5"]

/-- The `completion_rates` table: probability of a complete watch per title
type (the `complete` entry; `partial` is its complement). -/
def completionRate : TitleType → ℚ
  | .movie => 0.7
  | .series => 0.8
  | .documentary => 0.6

/-- Result record of `TelemetryGenerator._generate_viewing_session`. -/
structure ViewingSession where
  event_type : String
  watch_duration : ℤ
  position : ℤ
  completion_percentage : ℚ
  buffering_events : ℕ
  buffering_duration : ℕ
  error_count : ℕ
deriving DecidableEq

/-- Embedding of `TelemetryGenerator._generate_viewing_session(title,
quality)`.  `uComplete` drives the complete-vs-partial draw, `uWatch` the
watched-fraction draw (`random.uniform(0.85, 1.0)` resp. `(0.1, 0.8)`);
`poissonDraw` is the sampled value of `np.random.poisson` (an opaque
natural-number draw here); `rBuffLen` drives `random.randint(2, 10)` and
`uErr` the error draw.  `int(...)` truncation is `Int.floor`, exact for the
non-negative values that arise. -/
def generateViewingSession (durationMinutes : ℕ) (titleType : TitleType)
    (quality : String) (uComplete uWatch : ℚ) (poissonDraw rBuffLen : ℕ)
    (uErr : ℚ) : ViewingSession :=
  let titleDurationSeconds : ℤ := (durationMinutes : ℤ) * 60
  let isComplete := uComplete < completionRate titleType
  let core : String × ℤ × ℤ × ℚ :=
    if isComplete then
      let watchDuration := ⌊(titleDurationSeconds : ℚ) * uniformQ 0.85 1.0 uWatch⌋
      let completion : ℚ :=
        min 100 (((watchDuration : ℚ) / (titleDurationSeconds : ℚ)) * 100)
      ("complete", watchDuration, titleDurationSeconds, completion)
    else
      let watchPercentage := uniformQ 0.1 0.8 uWatch
      let watchDuration := ⌊(titleDurationSeconds : ℚ) * watchPercentage⌋
      ("stop", watchDuration, watchDuration, watchPercentage * 100)
  let errorProb : ℚ :=
    if quality = "4K" then 0.02 else if quality = "HD" then 0.01 else 0.005
  let bufferingEvents := poissonDraw
  let bufferingDuration :=
    if bufferingEvents > 0 then bufferingEvents * (2 + rBuffLen % 9) else 0
  let errorCount := if uErr < errorProb then 1 else 0
  { event_type := core.1
    watch_duration := core.2.1
    position := core.2.2.1
    completion_percentage := round2 core.2.2.2
    buffering_events := bufferingEvents
    buffering_duration := bufferingDuration
    error_count := errorCount }

end AcmeGen

namespace AcmeGen

/-- C5: every viewing session whose event type is `"complete"` has
`completion_percentage ≥ 85`.  The title duration in minutes is a positive
integer for every generated title (the title generator draws it with
`random.randint`), so `0.85 * duration_minutes * 60` is the integer
`51 * duration_minutes` and the truncation in `int(...)` cannot drop below
85 percent. -/
theorem complete_event_completion_ge_85 (durationMinutes : ℕ)
    (titleType : TitleType) (quality : String) (uComplete uWatch : ℚ)
    (poissonDraw rBuffLen : ℕ) (uErr : ℚ)
    (hm : 1 ≤ durationMinutes) (hu0 : 0 ≤ uWatch)
    (hevent : (generateViewingSession durationMinutes titleType quality
      uComplete uWatch poissonDraw rBuffLen uErr).event_type = "complete") :
    85 ≤ (generateViewingSession durationMinutes titleType quality
      uComplete uWatch poissonDraw rBuffLen uErr).completion_percentage := by
  unfold generateViewingSession at hevent ⊢
  by_cases hc : uComplete < completionRate titleType
  · simp only [if_pos hc] at hevent ⊢
    apply round2_ge_of_le (a := 85)
    have hm0 : (0:ℚ) < (durationMinutes : ℚ) := by exact_mod_cast hm
    have ht : ((durationMinutes : ℤ) * 60 : ℚ) = 60 * (durationMinutes : ℚ) := by
      push_cast
      ring
    have hfloor : (51 * durationMinutes : ℤ) ≤
        ⌊(((durationMinutes : ℤ) * 60 : ℤ) : ℚ) * uniformQ 0.85 1.0 uWatch⌋ := by
      rw [Int.le_floor]
      unfold uniformQ
      push_cast
      nlinarith
    have hfq : (51 * (durationMinutes : ℚ)) ≤
        (⌊(((durationMinutes : ℤ) * 60 : ℤ) : ℚ) * uniformQ 0.85 1.0 uWatch⌋ : ℚ) := by
      exact_mod_cast hfloor
    refine le_min (by norm_num) ?_
    rw [div_mul_eq_mul_div, le_div_iff₀ (by push_cast; linarith)]
    push_cast at hfq ⊢
    nlinarith
  · simp only [if_neg hc] at hevent
    simp at hevent

/-- Witness for C5 at a concrete input (a 90-minute movie, draws at zero, so
the complete branch is taken). -/
theorem complete_event_completion_ge_85_witness :
    (1 ≤ 90) ∧ ((0:ℚ) ≤ 0) ∧
    85 ≤ (generateViewingSession 90 TitleType.movie "HD" 0 0 0 0 0).completion_percentage :=
  ⟨by norm_num, le_refl 0,
    complete_event_completion_ge_85 90 TitleType.movie "HD" 0 0 0 0 0
      (by norm_num) (le_refl 0)
      (by norm_num [generateViewingSession, completionRate, uniformQ])⟩

/-- C6: the watched duration of a generated viewing session never exceeds
the title duration `duration_minutes * 60`, for either event type. -/
theorem watch_duration_le_title_duration (durationMinutes : ℕ)
    (titleType : TitleType) (quality : String) (uComplete uWatch : ℚ)
    (poissonDraw rBuffLen : ℕ) (uErr : ℚ)
    (hu0 : 0 ≤ uWatch) (hu1 : uWatch ≤ 1) :
    (generateViewingSession durationMinutes titleType quality
      uComplete uWatch poissonDraw rBuffLen uErr).watch_duration ≤
      (durationMinutes : ℤ) * 60 := by
  unfold generateViewingSession
  by_cases hc : uComplete < completionRate titleType
  · simp only [if_pos hc]
    have hle : (((durationMinutes : ℤ) * 60 : ℤ) : ℚ) * uniformQ 0.85 1.0 uWatch ≤
        (((durationMinutes : ℤ) * 60 : ℤ) : ℚ) := by
      unfold uniformQ
      have h0 : (0:ℚ) ≤ (((durationMinutes : ℤ) * 60 : ℤ) : ℚ) := by positivity
      nlinarith
    have h1 := le_trans (Int.floor_le _) hle
    exact_mod_cast h1
  · simp only [if_neg hc]
    have hle : (((durationMinutes : ℤ) * 60 : ℤ) : ℚ) * uniformQ 0.1 0.8 uWatch ≤
        (((durationMinutes : ℤ) * 60 : ℤ) : ℚ) := by
      unfold uniformQ
      have h0 : (0:ℚ) ≤ (((durationMinutes : ℤ) * 60 : ℤ) : ℚ) := by positivity
      nlinarith
    exact_mod_cast le_trans (Int.floor_le _) hle

/-- Witness for C6 at a concrete input. -/
theorem watch_duration_le_title_duration_witness :
    ((0:ℚ) ≤ 0) ∧ ((0:ℚ) ≤ 1) ∧
    (generateViewingSession 90 TitleType.movie "HD" 0 0 0 0 0).watch_duration ≤
      (90 : ℤ) * 60 :=
  ⟨le_refl 0, by norm_num,
    watch_duration_le_title_duration 90 TitleType.movie "HD" 0 0 0 0 0
      (le_refl 0) (by norm_num)⟩

end AcmeGen

namespace AcmeGen

/-- Embedding of `TelemetryGenerator._generate_timestamp(date_range_days)`:
a Faker draw picks a datetime in the last `date_range_days` days, then the
hour is redrawn from the hourly weight curve (`np.random.choice(24, p=...)`)
and minute/second are uniform.  Times are epoch seconds; `date.replace(...)`
keeps the day and overwrites hour, minute and second.  `hw` is the instance
state `self.hourly_weights` paired against hours `0..23`. -/
def genTimestamp (dateRangeDays : ℕ) (now : ℕ) (hw : List ℚ) (rDate : ℕ)
    (uHour : ℚ) (rMin rSec : ℕ) : Option ℕ := do
  let startDate := now - dateRangeDays * 86400
  let date := dtBetween startDate now rDate
  let hour ← weightedChoice ((List.range 24).zip hw) uHour
  pure (date / 86400 * 86400 + hour * 3600 + rMin % 60 * 60 + rSec % 60)

/-- The random draws consumed by one `_generate_single_event` call, in
source order.  String fields carry `uuid.uuid4()` values and the Faker ipv4
address. -/
structure EventDraws where
  rCust : ℕ
  uBranch : ℚ
  rTitle : ℕ
  rDate : ℕ
  uHour : ℚ
  rMin : ℕ
  rSec : ℕ
  uDevice : ℚ
  rOS : ℕ
  uQuality : ℚ
  uBand : ℚ
  sessionUuid : String
  uComplete : ℚ
  uWatch : ℚ
  poissonDraw : ℕ
  rBuffLen : ℕ
  uErr : ℚ
  uConn : ℚ
  eventUuid : String
  deviceUuid : String
  ipAddr : String
  rIsp : ℕ
  rApp : ℕ
deriving DecidableEq

/-- One generated telemetry event row (the dict returned by
`_generate_single_event`). -/
structure Event where
  event_id : String
  customer_id : String
  title_id : String
  session_id : String
  event_type : String
  event_timestamp : ℕ
  watch_duration_seconds : ℤ
  position_seconds : ℤ
  completion_percentage : ℚ
  device_type : String
  device_id : String
  device_os : String
  app_version : String
  quality : String
  bandwidth_mbps : ℚ
  buffering_events : ℕ
  buffering_duration_seconds : ℕ
  error_count : ℕ
  ip_address : String
  country : String
  state : String
  city : String
  isp : String
  connection_type : String
deriving DecidableEq

/-- Embedding of `TelemetryGenerator._generate_single_event(active_customers,
date_range_days)`.  `active` is the pre-filtered active-customer table,
`titles` the title table, `hw` the `self.hourly_weights` instance state and
`now` the clock.  Every fallible sampling step is an `Option` bind, in source
order. -/
def singleEvent (active : List Customer) (titles : List Title) (hw : List ℚ)
    (dateRangeDays : ℕ) (now : ℕ) (d : EventDraws) : Option Event := do
  let customer ← sampleList active d.rCust
  let preferredGenres := customer.preferred_genres
  let genreTitles := titles.filter (fun t => preferredGenres.contains t.genre)
  let otherTitles := titles.filter (fun t => !(preferredGenres.contains t.genre))
  let titlePool := if d.uBranch < 0.8 ∧ 0 < genreTitles.length then
      genreTitles
    else
      otherTitles
  let title ← sampleList titlePool d.rTitle
  let eventTimestamp ← genTimestamp dateRangeDays now hw d.rDate d.uHour d.rMin d.rSec
  let deviceType ← weightedChoice deviceTypesW d.uDevice
  let deviceOS ← sampleList (osFor deviceType) d.rOS
  let quality ← weightedChoice (qualityByTier customer.subscription_tier) d.uQuality
  let bw ← bandwidthRanges quality
  let bandwidthMbps := uniformQ bw.1 bw.2 d.uBand
  let sessionId := "SESSION_" ++ d.sessionUuid.take 8
  let vs := generateViewingSession title.duration_minutes title.title_type quality
    d.uComplete d.uWatch d.poissonDraw d.rBuffLen d.uErr
  let connectionType ← weightedChoice connectionTypesW d.uConn
  let ispName ← sampleList isps d.rIsp
  let appVersion ← sampleList appVersions d.rApp
  pure {
    event_id := "EVENT_" ++ d.eventUuid.take 8
    customer_id := customer.customer_id
    title_id := title.title_id
    session_id := sessionId
    event_type := vs.event_type
    event_timestamp := eventTimestamp
    watch_duration_seconds := vs.watch_duration
    position_seconds := vs.position
    completion_percentage := vs.completion_percentage
    device_type := deviceType
    device_id := "DEVICE_" ++ d.deviceUuid.take 8
    device_os := deviceOS
    app_version := appVersion
    quality := quality
    bandwidth_mbps := round2 bandwidthMbps
    buffering_events := vs.buffering_events
    buffering_duration_seconds := vs.buffering_duration
    error_count := vs.error_count
    ip_address := d.ipAddr
    country := customer.country
    state := customer.state
    city := customer.city
    isp := ispName
    connection_type := connectionType }

/-- Insertion step of the final `df.sort_values("event_timestamp")`. -/
def insertByTimestamp (e : Event) : List Event → List Event
  | [] => [e]
  | x :: xs =>
    if e.event_timestamp ≤ x.event_timestamp then e :: x :: xs
    else x :: insertByTimestamp e xs

/-- Embedding of `df.sort_values("event_timestamp")` as an insertion sort
(any comparison sort yields a table that is nondecreasing in the key, which
is the property in question). -/
def sortByTimestamp : List Event → List Event
  | [] => []
  | x :: xs => insertByTimestamp x (sortByTimestamp xs)

/-- Nondecreasing order of a list of events in the `event_timestamp` key. -/
def TimestampSorted (l : List Event) : Prop :=
  l.Pairwise (fun a b => a.event_timestamp ≤ b.event_timestamp)

/-- Embedding of `TelemetryGenerator.generate_telemetry_events(num_events,
date_range_days)`: filter the active customers, generate one event per draw
record (`num_events = draws.length`), then sort by timestamp. -/
def generateTelemetryEvents (customers : List Customer) (titles : List Title)
    (hw : List ℚ) (dateRangeDays : ℕ) (now : ℕ) (draws : List EventDraws) :
    Option (List Event) := do
  let active := customers.filter (fun c => c.is_active)
  let events ← draws.mapM (singleEvent active titles hw dateRangeDays now)
  pure (sortByTimestamp events)

theorem mem_insertByTimestamp {e a : Event} {l : List Event}
    (h : a ∈ insertByTimestamp e l) : a = e ∨ a ∈ l := by
  induction l with
  | nil => simpa [insertByTimestamp] using h
  | cons x xs ih =>
    simp only [insertByTimestamp] at h
    split at h
    · simp only [List.mem_cons] at h
      rcases h with h | h | h
      · exact Or.inl h
      · exact Or.inr (by simp [h])
      · exact Or.inr (by simp [h])
    · simp only [List.mem_cons] at h
      rcases h with h | h
      · exact Or.inr (by simp [h])
      · rcases ih h with h | h
        · exact Or.inl h
        · exact Or.inr (by simp [h])

theorem pairwise_insertByTimestamp {e : Event} {l : List Event}
    (h : TimestampSorted l) : TimestampSorted (insertByTimestamp e l) := by
  induction l with
  | nil => simp [insertByTimestamp, TimestampSorted]
  | cons x xs ih =>
    simp only [TimestampSorted, List.pairwise_cons] at h
    obtain ⟨hx, hxs⟩ := h
    simp only [insertByTimestamp]
    split
    · rename_i hle
      simp only [TimestampSorted, List.pairwise_cons]
      refine ⟨?_, hx, hxs⟩
      intro b hb
      simp only [List.mem_cons] at hb
      rcases hb with hb | hb
      · simp [hb, hle]
      · exact le_trans hle (hx b hb)
    · rename_i hgt
      simp only [TimestampSorted, List.pairwise_cons]
      refine ⟨?_, ih hxs⟩
      intro b hb
      rcases mem_insertByTimestamp hb with hb | hb
      · subst hb
        exact le_of_not_le hgt
      · exact hx b hb

theorem sortByTimestamp_sorted (l : List Event) :
    TimestampSorted (sortByTimestamp l) := by
  induction l with
  | nil => simp [sortByTimestamp, TimestampSorted]
  | cons x xs ih => exact pairwise_insertByTimestamp ih

/-- C9: whatever the number of events and the date range, a successful
`generate_telemetry_events` call returns a table sorted in nondecreasing
order of `event_timestamp`. -/
theorem telemetry_events_sorted (customers : List Customer)
    (titles : List Title) (hw : List ℚ) (dateRangeDays : ℕ) (now : ℕ)
    (draws : List EventDraws) (evs : List Event)
    (h : generateTelemetryEvents customers titles hw dateRangeDays now draws
      = some evs) : TimestampSorted evs := by
  unfold generateTelemetryEvents at h
  simp only [bind, Option.bind_eq_some, pure, Option.some.injEq] at h
  obtain ⟨l, _, hl⟩ := h
  subst hl
  exact sortByTimestamp_sorted l

end AcmeGen

namespace AcmeGen

/-- A uniform 24-entry hour weight vector, a convenient concrete value for
`self.hourly_weights` in witnesses (it is positive and sums to one, the two
properties `_generate_hourly_weights` guarantees). -/
def uniformHours : List ℚ := List.replicate 24 (1/24)

/-- A concrete active customer used as telemetry input in witnesses and
counterexamples. -/
def telCustomer : Customer :=
  { customer_id := "CUST_00000000_000000", email := "x@y.z", first_name := "A",
    last_name := "B", date_of_birth := 0, age_group := "25-34",
    subscription_tier := Tier.premium, subscription_start_date := 0,
    subscription_end_date := none, country := "United States",
    state := "California", city := "LA", timezone := "America/New_York",
    payment_method := "credit_card", monthly_revenue := 0, lifetime_value := 0,
    is_active := true, acquisition_channel := "email",
    preferred_genres := ["Action"], created_at := 0, updated_at := 0 }

/-- A concrete title whose genre lies in the preferred genres of
`telCustomer`. -/
def telTitle : Title :=
  { title_id := "TITLE_00000001", title_type := TitleType.movie,
    genre := "Action", duration_minutes := 120 }

/-- Concrete single-event draws taking the preferred-genre branch
(`uBranch = 0 < 0.8`). -/
def telDraw : EventDraws :=
  { rCust := 0, uBranch := 0, rTitle := 0, rDate := 0, uHour := 0, rMin := 0,
    rSec := 0, uDevice := 0, rOS := 0, uQuality := 0, uBand := 0,
    sessionUuid := "s1", uComplete := 0, uWatch := 0, poissonDraw := 0,
    rBuffLen := 0, uErr := 0, uConn := 0, eventUuid := "e1",
    deviceUuid := "d1", ipAddr := "10.0.0.1", rIsp := 0, rApp := 0 }

/-- The event list produced by one concrete generation run. -/
def telEvents : List Event :=
  (generateTelemetryEvents [telCustomer] [telTitle] uniformHours 30 1700000000
    [telDraw]).getD []

/-- Witness for C9 at a concrete input. -/
theorem telemetry_events_sorted_witness : TimestampSorted telEvents :=
  telemetry_events_sorted [telCustomer] [telTitle] uniformHours 30 1700000000
    [telDraw] telEvents (by
      norm_num [generateTelemetryEvents, telEvents, singleEvent, genTimestamp,
        generateViewingSession, sampleList, weightedChoice, weightedChoiceGo,
        deviceTypesW, osFor, qualityByTier, bandwidthRanges, connectionTypesW,
        isps, appVersions, completionRate, uniformQ, round2, roundHalfEven,
        uniformHours, telCustomer, telTitle, telDraw, dtBetween, sortByTimestamp,
        insertByTimestamp, List.mapM, List.mapM.loop, min_def, Tier.free_with_ads])

end AcmeGen

namespace AcmeGen

theorem quality_choice_free_no4k {u : ℚ} {q : String}
    (h : weightedChoice (qualityByTier Tier.free_with_ads) u = some q) :
    q = "SD" ∨ q = "HD" := by
  simp only [qualityByTier, weightedChoice, weightedChoiceGo] at h
  split_ifs at h with h1 h2 h3 <;>
    simp only [Option.some.injEq] at h
  · exact Or.inl h.symm
  · exact Or.inr h.symm
  · exact absurd h3 (by intro hx; apply h2; linarith)

theorem quality_choice_basic_no4k {u : ℚ} {q : String}
    (h : weightedChoice (qualityByTier Tier.basic) u = some q) :
    q = "SD" ∨ q = "HD" := by
  simp only [qualityByTier, weightedChoice, weightedChoiceGo] at h
  split_ifs at h with h1 h2 h3 <;>
    simp only [Option.some.injEq] at h
  · exact Or.inl h.symm
  · exact Or.inr h.symm
  · exact absurd h3 (by intro hx; apply h2; linarith)

/-- C10: an event generated for a sampled customer on the `free_with_ads` or
`basic` tier never carries quality `"4K"`: those rows of `quality_by_tier`
give 4K the weight `0.0`, so the cumulative-weight scan never reaches it;
every such event has quality `"SD"` or `"HD"`. -/
theorem low_tier_event_never_4k (active : List Customer) (titles : List Title)
    (hw : List ℚ) (dateRangeDays : ℕ) (now : ℕ) (d : EventDraws)
    (cust : Customer) (ev : Event)
    (hcust : sampleList active d.rCust = some cust)
    (htier : cust.subscription_tier = Tier.free_with_ads ∨
      cust.subscription_tier = Tier.basic)
    (hev : singleEvent active titles hw dateRangeDays now d = some ev) :
    ev.quality = "SD" ∨ ev.quality = "HD" := by
  unfold singleEvent at hev
  simp only [bind, Option.bind_eq_some, pure, Option.some.injEq] at hev
  obtain ⟨c, hc, t, ht, ts, hts, dev, hdev, os, hos, q, hq, bw, hbw,
    conn, hconn, ispv, hisp, app, happ, hevrec⟩ := hev
  rw [hcust] at hc
  injection hc with hc
  subst hc
  subst hevrec
  rcases htier with htier | htier <;> rw [htier] at hq
  · exact quality_choice_free_no4k hq
  · exact quality_choice_basic_no4k hq

/-- Concrete single-event draws for a free-tier customer. -/
def telFreeCustomer : Customer :=
  { telCustomer with subscription_tier := Tier.free_with_ads }

/-- Fixed fallback event record, used only to name the result of a
successful concrete generation. -/
def fallbackEvent : Event :=
  ⟨"", "", "", "", "", 0, 0, 0, 0, "", "", "", "", "", 0, 0, 0, 0, "", "",
   "", "", "", ""⟩

/-- The event generated for the free-tier customer. -/
def telFreeEvent : Event :=
  (singleEvent [telFreeCustomer] [telTitle] uniformHours 30 1700000000
    telDraw).getD fallbackEvent

/-- Witness for C10 at a concrete input. -/
theorem low_tier_event_never_4k_witness :
    telFreeEvent.quality = "SD" ∨ telFreeEvent.quality = "HD" :=
  low_tier_event_never_4k [telFreeCustomer] [telTitle] uniformHours 30
    1700000000 telDraw telFreeCustomer telFreeEvent
    (by norm_num [sampleList, telFreeCustomer, telDraw])
    (Or.inl rfl)
    (by
      norm_num [singleEvent, genTimestamp, generateViewingSession, sampleList,
        weightedChoice, weightedChoiceGo, deviceTypesW, osFor, qualityByTier,
        bandwidthRanges, connectionTypesW, isps, appVersions, completionRate,
        uniformQ, round2, roundHalfEven, uniformHours, telCustomer,
        telFreeCustomer, telTitle, telDraw, dtBetween, telFreeEvent, min_def])

end AcmeGen

namespace AcmeGen

/-- Draws identical to `telDraw` except that the title-selection draw takes
the 20-percent branch (`uBranch = 0.9 ≥ 0.8`), which samples from the titles
outside the preferred genres of the customer. -/
def telDrawMiss : EventDraws := { telDraw with uBranch := 0.9 }

/-- C3 counterexample: the customers table holds an active customer and the
titles table is non-empty, yet `generate_telemetry_events` fails: every title
matches a preferred genre of the sampled customer, so the remaining-titles
pool is empty, and the 20-percent branch calls `.sample(1)` on an empty
frame. -/
theorem sampling_failure_counterexample :
    (List.filter (fun c => c.is_active) [telCustomer] ≠ [] ∧
      ([telTitle] : List Title) ≠ []) ∧
    generateTelemetryEvents [telCustomer] [telTitle] uniformHours 30
      1700000000 [telDrawMiss] = none := by
  refine ⟨⟨by simp [telCustomer], by simp⟩, ?_⟩
  norm_num [generateTelemetryEvents, singleEvent, sampleList, telCustomer,
    telTitle, telDrawMiss, telDraw, List.mapM, List.mapM.loop, uniformHours]

theorem sampleList_isSome {l : List α} (r : ℕ) (h : l ≠ []) :
    (sampleList l r).isSome := by
  unfold sampleList
  have hlt : r % l.length < l.length := Nat.mod_lt _ (List.length_pos.mpr h)
  simp [List.getElem?_eq_getElem hlt]

theorem genTimestamp_isSome (dateRangeDays now rDate rMin rSec : ℕ)
    {hw : List ℚ} {uHour : ℚ}
    (hlen : hw.length = 24) (hsum : hw.sum = 1) (hu : uHour < 1) :
    (genTimestamp dateRangeDays now hw rDate uHour rMin rSec).isSome := by
  unfold genTimestamp
  have hzip : ((List.range 24).zip hw) ≠ [] := by
    have hl : ((List.range 24).zip hw).length = 24 := by
      simp [List.length_zip, hlen]
    intro hnil
    rw [hnil] at hl
    simp at hl
  have hsw : sumWeights ((List.range 24).zip hw) = 1 := by
    unfold sumWeights
    rw [List.map_snd_zip]
    · exact hsum
    · simp [hlen]
  obtain ⟨h, hh⟩ := Option.isSome_iff_exists.mp
    (weightedChoice_isSome hzip (by rw [hsw]; exact hu))
  simp [hh]

/-- C3 amended: sampling indeed never fails, but only under the stronger
pool precondition: beyond a non-empty active pool, the title pool the drawn
branch samples from must be non-empty — either the remaining-titles pool
(titles outside the preferred genres of the sampled customer) is non-empty,
or the preferred-genre branch is taken (`uBranch < 0.8`) with a non-empty
preferred pool.  The uniform draws lie in `[0, 1)` and the hourly weight
vector has 24 entries summing to 1, as `_generate_hourly_weights`
guarantees. -/
theorem telemetry_sampling_succeeds (active : List Customer)
    (titles : List Title) (hw : List ℚ) (dateRangeDays now : ℕ)
    (d : EventDraws)
    (hact : active ≠ [])
    (hwlen : hw.length = 24) (hwsum : hw.sum = 1)
    (huHour : d.uHour < 1) (huDev : d.uDevice < 1) (huQ : d.uQuality < 1)
    (huConn : d.uConn < 1)
    (hpool : ∀ cust, sampleList active d.rCust = some cust →
      titles.filter (fun t => !(cust.preferred_genres.contains t.genre)) ≠ [] ∨
      (d.uBranch < 0.8 ∧
        titles.filter (fun t => cust.preferred_genres.contains t.genre) ≠ [])) :
    (singleEvent active titles hw dateRangeDays now d).isSome := by
  obtain ⟨cust, hcust⟩ :=
    Option.isSome_iff_exists.mp (sampleList_isSome d.rCust hact)
  have hpoolne :
      (if d.uBranch < 0.8 ∧
          0 < (titles.filter (fun t => cust.preferred_genres.contains t.genre)).length then
        titles.filter (fun t => cust.preferred_genres.contains t.genre)
      else
        titles.filter (fun t => !(cust.preferred_genres.contains t.genre))) ≠ [] := by
    rcases hpool cust hcust with hother | ⟨hb, hg⟩
    · split
      · rename_i hcond
        exact List.length_pos.mp hcond.2
      · exact hother
    · split
      · rename_i hcond
        exact List.length_pos.mp hcond.2
      · rename_i hcond
        exact absurd ⟨hb, List.length_pos.mpr hg⟩ hcond
  obtain ⟨t, ht⟩ :=
    Option.isSome_iff_exists.mp (sampleList_isSome d.rTitle hpoolne)
  obtain ⟨ts, hts⟩ := Option.isSome_iff_exists.mp
    (genTimestamp_isSome dateRangeDays now d.rDate d.rMin d.rSec hwlen hwsum huHour)
  have hsumdev : sumWeights deviceTypesW = 1 := by
    norm_num [sumWeights, deviceTypesW]
  obtain ⟨dev, hdev⟩ := Option.isSome_iff_exists.mp
    (weightedChoice_isSome (by simp [deviceTypesW]) (hsumdev ▸ huDev))
  have hosne : osFor dev ≠ [] := by
    have hmem := weightedChoice_mem hdev
    simp only [deviceTypesW, List.map_cons, List.map_nil, List.mem_cons,
      List.not_mem_nil, or_false] at hmem
    rcases hmem with rfl | rfl | rfl | rfl <;> simp [osFor]
  obtain ⟨os, hos⟩ :=
    Option.isSome_iff_exists.mp (sampleList_isSome d.rOS hosne)
  have hqne : qualityByTier cust.subscription_tier ≠ [] := by
    cases cust.subscription_tier <;> simp [qualityByTier]
  have hqsum : sumWeights (qualityByTier cust.subscription_tier) = 1 := by
    cases cust.subscription_tier <;> norm_num [qualityByTier, sumWeights]
  obtain ⟨q, hq⟩ := Option.isSome_iff_exists.mp
    (weightedChoice_isSome hqne (hqsum ▸ huQ))
  have hq3 : q = "SD" ∨ q = "HD" ∨ q = "4K" := by
    have hmem := weightedChoice_mem hq
    revert hmem
    cases cust.subscription_tier <;>
      · intro hmem
        simp only [qualityByTier, List.map_cons, List.map_nil, List.mem_cons,
          List.not_mem_nil, or_false] at hmem
        tauto
  have hbw : (bandwidthRanges q).isSome := by
    rcases hq3 with rfl | rfl | rfl <;> simp [bandwidthRanges]
  obtain ⟨bwv, hbwv⟩ := Option.isSome_iff_exists.mp hbw
  have hsumconn : sumWeights connectionTypesW = 1 := by
    norm_num [sumWeights, connectionTypesW]
  obtain ⟨conn, hconn⟩ := Option.isSome_iff_exists.mp
    (weightedChoice_isSome (by simp [connectionTypesW]) (hsumconn ▸ huConn))
  obtain ⟨ispv, hisp⟩ := Option.isSome_iff_exists.mp
    (show (sampleList isps d.rIsp).isSome from
      sampleList_isSome d.rIsp (by simp [isps]))
  obtain ⟨app, happ⟩ := Option.isSome_iff_exists.mp
    (show (sampleList appVersions d.rApp).isSome from
      sampleList_isSome d.rApp (by simp [appVersions]))
  simp only [singleEvent, hcust, Option.bind_eq_bind, Option.some_bind, ht,
    hts, hdev, hos, hq, hbwv, hconn, hisp, happ, Option.isSome_some]
  rfl

end AcmeGen

namespace AcmeGen

/-- Witness for the amended C3 statement at a concrete input. -/
theorem telemetry_sampling_succeeds_witness :
    (singleEvent [telCustomer] [telTitle] uniformHours 30 1700000000
      telDraw).isSome :=
  telemetry_sampling_succeeds [telCustomer] [telTitle] uniformHours 30
    1700000000 telDraw
    (by simp)
    (by simp [uniformHours])
    (by norm_num [uniformHours, List.sum_replicate])
    (by norm_num [telDraw])
    (by norm_num [telDraw])
    (by norm_num [telDraw])
    (by norm_num [telDraw])
    (by
      intro cust h
      simp only [sampleList, telDraw] at h
      norm_num at h
      refine Or.inr ⟨by norm_num [telDraw], ?_⟩
      simp [← h, telCustomer, telTitle])

end AcmeGen

namespace AcmeGen

/-- Gaussian-shaped array pattern `np.exp(-0.5 * ((hours - center) / width)
** 2)` of `_generate_hourly_weights`, at integer hour `h`. -/
noncomputable def gaussArray (center width : ℝ) (h : ℕ) : ℝ :=
  Real.exp (-(0.5) * (((h : ℝ) - center) / width) ^ 2)

/-- The `morning_peak` array. -/
noncomputable def morningPeak (h : ℕ) : ℝ := gaussArray 7 2 h

/-- The `evening_peak` array. -/
noncomputable def eveningPeak (h : ℕ) : ℝ := gaussArray 20 3 h

/-- The `late_night` array: note the extra factor `* 0.5` inside its
definition (line 207 of the telemetry generator). -/
noncomputable def lateNight (h : ℕ) : ℝ := gaussArray 23 2 h * 0.5

/-- The unnormalized combination `morning_peak * 0.3 + evening_peak * 1.0 +
late_night * 0.4` (line 209). -/
noncomputable def rawHourlyWeight (h : ℕ) : ℝ :=
  morningPeak h * 0.3 + eveningPeak h * 1.0 + lateNight h * 0.4

/-- The normalized hourly weight vector `weights / weights.sum()` returned
by `_generate_hourly_weights`. -/
noncomputable def hourlyWeight (h : ℕ) : ℝ :=
  rawHourlyWeight h / ∑ x ∈ Finset.range 24, rawHourlyWeight x

/-- Modelled from the claim (and spec): the unnormalized mixture
`0.3 N(7,2) + 1.0 N(20,3) + 0.4 N(23,2)` of Gaussian-shaped components,
to be compared with the combination the code computes. -/
noncomputable def specRawWeight (h : ℕ) : ℝ :=
  0.3 * gaussArray 7 2 h + 1.0 * gaussArray 20 3 h + 0.4 * gaussArray 23 2 h

/-- Modelled from the claim: the normalized mixture. -/
noncomputable def specHourlyWeight (h : ℕ) : ℝ :=
  specRawWeight h / ∑ x ∈ Finset.range 24, specRawWeight x

/-- The mixture the code actually computes, with the inner `* 0.5` folded
into the coefficient of the third component: `0.2`, not `0.4`. -/
noncomputable def amendedRawWeight (h : ℕ) : ℝ :=
  0.3 * gaussArray 7 2 h + 1.0 * gaussArray 20 3 h + 0.2 * gaussArray 23 2 h

theorem gaussArray_pos (center width : ℝ) (h : ℕ) : 0 < gaussArray center width h :=
  Real.exp_pos _

theorem gaussArray_le_one (center width : ℝ) (h : ℕ) :
    gaussArray center width h ≤ 1 := by
  unfold gaussArray
  calc Real.exp (-(0.5) * (((h : ℝ) - center) / width) ^ 2) ≤ Real.exp 0 := by
        apply Real.exp_le_exp.mpr
        nlinarith [sq_nonneg (((h : ℝ) - center) / width)]
    _ = 1 := Real.exp_zero

theorem rawHourlyWeight_eq_amended (h : ℕ) :
    rawHourlyWeight h = amendedRawWeight h := by
  unfold rawHourlyWeight amendedRawWeight morningPeak eveningPeak lateNight
  ring

theorem rawHourlyWeight_pos (h : ℕ) : 0 < rawHourlyWeight h := by
  unfold rawHourlyWeight morningPeak eveningPeak lateNight
  nlinarith [gaussArray_pos 7 2 h, gaussArray_pos 20 3 h, gaussArray_pos 23 2 h]

theorem specRawWeight_pos (h : ℕ) : 0 < specRawWeight h := by
  unfold specRawWeight
  nlinarith [gaussArray_pos 7 2 h, gaussArray_pos 20 3 h, gaussArray_pos 23 2 h]

theorem rawHourlySum_pos : 0 < ∑ x ∈ Finset.range 24, rawHourlyWeight x :=
  Finset.sum_pos (fun x _ => rawHourlyWeight_pos x)
    ⟨0, Finset.mem_range.mpr (by norm_num)⟩

theorem specRawSum_pos : 0 < ∑ x ∈ Finset.range 24, specRawWeight x :=
  Finset.sum_pos (fun x _ => specRawWeight_pos x)
    ⟨0, Finset.mem_range.mpr (by norm_num)⟩

/-- C2 amended: the normalized hour-of-day weight vector equals the
normalization of `0.3 N(7,2) + 1.0 N(20,3) + 0.2 N(23,2)`: the effective
mixture weight of the late-night component is `0.2` (the `0.4` coefficient
applied to a component already scaled by `0.5`), not `0.4`. -/
theorem hourly_weights_amended (h : ℕ) :
    hourlyWeight h =
      amendedRawWeight h / ∑ x ∈ Finset.range 24, amendedRawWeight x := by
  unfold hourlyWeight
  rw [rawHourlyWeight_eq_amended]
  congr 1
  exact Finset.sum_congr rfl (fun x _ => rawHourlyWeight_eq_amended x)

end AcmeGen

namespace AcmeGen

theorem gauss23_at_23 : gaussArray 23 2 23 = 1 := by
  unfold gaussArray
  have harg : (-(0.5) * ((((23:ℕ) : ℝ) - 23) / 2) ^ 2) = 0 := by norm_num
  rw [harg, Real.exp_zero]

theorem gauss23_at_7 : gaussArray 23 2 7 = Real.exp (-32) := by
  unfold gaussArray
  congr 1
  norm_num

theorem gauss7_at_7 : gaussArray 7 2 7 = 1 := by
  unfold gaussArray
  have harg : (-(0.5) * ((((7:ℕ) : ℝ) - 7) / 2) ^ 2) = 0 := by norm_num
  rw [harg, Real.exp_zero]

theorem exp_neg_two_lt : Real.exp (-2 : ℝ) < 0.15 := by
  have h2 : Real.exp (2:ℝ) = Real.exp 1 * Real.exp 1 := by
    rw [← Real.exp_add]
    norm_num
  have he : (2.7 : ℝ) < Real.exp 1 := by
    have := Real.exp_one_gt_d9
    linarith
  have hgt : (7.29 : ℝ) < Real.exp (2:ℝ) := by
    rw [h2]
    nlinarith
  have hpos : (0:ℝ) < Real.exp (2:ℝ) := Real.exp_pos _
  have hinv : Real.exp (2:ℝ) * Real.exp (-2:ℝ) = 1 := by
    rw [← Real.exp_add]
    norm_num [Real.exp_zero]
  nlinarith [Real.exp_pos (-2:ℝ)]

/-- C2 counterexample: the normalized hour-of-day weight vector of the code
differs from the normalization of the claimed mixture `0.3 N(7,2) +
1.0 N(20,3) + 0.4 N(23,2)`: if the two normalized vectors agreed at hours 7
and 23 the unnormalized vectors would satisfy
`raw(7) = exp(-32) * raw(23)`, which numeric bounds on the exponential
exclude. -/
theorem hourly_weights_counterexample :
    ¬ ∀ h ∈ Finset.range 24, hourlyWeight h = specHourlyWeight h := by
  intro H
  have h7 := H 7 (Finset.mem_range.mpr (by norm_num))
  have h23 := H 23 (Finset.mem_range.mpr (by norm_num))
  have hS := rawHourlySum_pos
  have hT := specRawSum_pos
  unfold hourlyWeight specHourlyWeight at h7 h23
  rw [div_eq_div_iff hS.ne' hT.ne'] at h7 h23
  have hcross : specRawWeight 7 * rawHourlyWeight 23 =
      specRawWeight 23 * rawHourlyWeight 7 := by
    have hc : specRawWeight 7 * rawHourlyWeight 23 *
        (∑ x ∈ Finset.range 24, rawHourlyWeight x) =
        specRawWeight 23 * rawHourlyWeight 7 *
        (∑ x ∈ Finset.range 24, rawHourlyWeight x) := by
      linear_combination rawHourlyWeight 7 * h23 - rawHourlyWeight 23 * h7
    exact mul_right_cancel₀ hS.ne' hc
  have hspec : ∀ h : ℕ, specRawWeight h =
      rawHourlyWeight h + 0.2 * gaussArray 23 2 h := by
    intro h
    unfold specRawWeight rawHourlyWeight morningPeak eveningPeak lateNight
    ring
  rw [hspec 7, hspec 23, gauss23_at_23, gauss23_at_7] at hcross
  have hkey : rawHourlyWeight 7 = Real.exp (-32) * rawHourlyWeight 23 := by
    nlinarith [hcross]
  have hb1 : (0.3 : ℝ) ≤ rawHourlyWeight 7 := by
    unfold rawHourlyWeight morningPeak eveningPeak lateNight
    rw [gauss7_at_7]
    nlinarith [gaussArray_pos 20 3 7, gaussArray_pos 23 2 7]
  have hb2 : rawHourlyWeight 23 ≤ 1.5 := by
    unfold rawHourlyWeight morningPeak eveningPeak lateNight
    nlinarith [gaussArray_le_one 7 2 23, gaussArray_le_one 20 3 23,
      gaussArray_le_one 23 2 23, gaussArray_pos 7 2 23, gaussArray_pos 20 3 23,
      gaussArray_pos 23 2 23]
  have hb3 : Real.exp (-32 : ℝ) ≤ Real.exp (-2 : ℝ) :=
    Real.exp_le_exp.mpr (by norm_num)
  have hb4 := exp_neg_two_lt
  have hr23 := rawHourlyWeight_pos 23
  have he32 := Real.exp_pos (-32 : ℝ)
  nlinarith [hkey, hb1, hb2, hb3, hb4, hr23, he32]

end AcmeGen

namespace AcmeGen

/-- The `industries` weight table of `CampaignGenerator`. -/
def industriesW : List (String × ℚ) :=
  [("Technology", 0.20), ("Retail", 0.15), ("Automotive", 0.15),
   ("Financial Services", 0.10), ("Healthcare", 0.08),
   ("Food & Beverage", 0.12), ("Entertainment", 0.08), ("Travel", 0.07),
   ("Fashion", 0.05)]

/-- The `campaign_types` weight table. -/
def campaignTypesW : List (String × ℚ) :=
  [("brand_awareness", 0.35), ("conversion", 0.40), ("retention", 0.25)]

/-- The `objectives` table (a dict lookup keyed by campaign type). -/
def objectivesFor (campaignType : String) : List String :=
  if campaignType = "brand_awareness" then
    ["Increase brand recognition", "Build brand equity", "Reach new audiences"]
  else if campaignType = "conversion" then
    ["Drive sales", "Generate leads", "Increase app downloads", "Boost subscriptions"]
  else if campaignType = "retention" then
    ["Reduce churn", "Increase engagement", "Promote loyalty program"]
  else []

/-- The `ad_formats` weight table. -/
def adFormatsW : List (String × ℚ) :=
  [("video", 0.60), ("display", 0.25), ("interactive", 0.15)]

/-- The `ad_durations` table (a dict lookup keyed by ad format). -/
def adDurationsFor (adFormat : String) : List ℕ :=
  if adFormat = "video" then [15, 30, 60]
  else if adFormat = "display" then [0]
  else if adFormat = "interactive" then [30, 45, 60]
  else []

/-- The `placement_types` weight table. -/
def placementTypesW : List (String × ℚ) :=
  [("pre-roll", 0.50), ("mid-roll", 0.30), ("post-roll", 0.20)]

/-- The campaign targeting option lists. -/
def campaignAgeGroups : List String :=
  ["18-24", "25-34", "35-44", "45-54", "55-64", "65+"]

def campaignGenders : List String := ["Male", "Female", "All"]

def campaignCountries : List String :=
  ["United States", "Canada", "United Kingdom", "Germany", "France", "All"]

def campaignGenres : List String :=
  ["Action", "Comedy", "Drama", "Horror", "Sci-Fi", "Romance", "All"]

def campaignTiers : List String := ["free_with_ads", "basic", "All"]

/-- The `company_names` list. -/
def companyNames : List String :=
  ["TechCorp", "MegaRetail", "AutoDrive", "FinanceFirst", "HealthPlus",
   "FoodDelight", "EntertainMax", "TravelEasy", "FashionForward", "SportsPro",
   "BeautyGlow", "HomeComfort", "EduLearn", "GreenEnergy", "CryptoTrade"]

/-- Embedding of `CampaignGenerator._select_targets(options,
all_probability)`: with probability `all_probability` (and only when `"All"`
is among the options) return `["All"]`; otherwise draw `randint(1, min(3,
len(non_all)))` targets with `random.sample`.  `randint(1, 0)` on an empty
non-All pool raises, hence `none`. -/
def selectTargets (options : List String) (allProb : ℚ) (u : ℚ)
    (rK rS : ℕ) : Option (List String) :=
  if options.contains "All" ∧ u < allProb then some ["All"]
  else
    let nonAll := options.filter (fun o => o != "All")
    if nonAll.length = 0 then none
    else
      let numTargets := 1 + rK % (min 3 nonAll.length)
      sampleK numTargets nonAll rS

/-- The ten performance-metric fields of
`CampaignGenerator._generate_performance_metrics`. -/
structure Performance where
  impressions : ℤ
  unique_viewers : ℤ
  clicks : ℤ
  conversions : ℤ
  view_through_rate : ℚ
  click_through_rate : ℚ
  conversion_rate : ℚ
  cost_per_mille : ℚ
  cost_per_click : ℚ
  cost_per_conversion : ℚ
deriving DecidableEq

/-- Embedding of `CampaignGenerator._generate_empty_performance`. -/
def emptyPerformance : Performance :=
  { impressions := 0, unique_viewers := 0, clicks := 0, conversions := 0,
    view_through_rate := 0, click_through_rate := 0, conversion_rate := 0,
    cost_per_mille := 0, cost_per_click := 0, cost_per_conversion := 0 }

/-- The random draws consumed by one `generate_campaign` call, in source
order. -/
structure CampaignDraws where
  uIndustry : ℚ
  uType : ℚ
  rObjective : ℕ
  rDuration : ℕ
  rStartDate : ℕ
  uBudget : ℚ
  uSpentFull : ℚ
  uSpentActive : ℚ
  uTAge : ℚ
  rKAge : ℕ
  rSAge : ℕ
  uTGender : ℚ
  rKGender : ℕ
  rSGender : ℕ
  uTCountry : ℚ
  rKCountry : ℕ
  rSCountry : ℕ
  uTGenre : ℚ
  rKGenre : ℕ
  rSGenre : ℕ
  uTierShortcut : ℚ
  uTTier : ℚ
  rKTier : ℕ
  rSTier : ℕ
  uFormat : ℚ
  rAdDur : ℕ
  uPlacement : ℚ
  rCompany : ℕ
  uCpmBase : ℚ
  uCtrBase : ℚ
  uConvBase : ℚ
  uVtr : ℚ
  uCpmMul : ℚ
  uViewers : ℚ
  uCtrMul : ℚ
  uConvMul : ℚ
  rCreated : ℕ
  rUpdated : ℕ
  uuidCampaign : String
  uuidAdv : String
deriving DecidableEq

/-- Embedding of `CampaignGenerator._generate_performance_metrics(
campaign_type, spent_amount, days_run, ad_format)`.  The `int(...)`
truncations are `Int.floor`, exact for the non-negative values arising from
in-range draws. -/
def generatePerformanceMetrics (campaignType : String) (spentAmount : ℚ)
    (daysRun : ℕ) (adFormat : String) (d : CampaignDraws) : Performance :=
  let cpmBase :=
    if campaignType = "brand_awareness" then uniformQ 5 15 d.uCpmBase
    else if campaignType = "conversion" then uniformQ 10 25 d.uCpmBase
    else uniformQ 8 20 d.uCpmBase
  let ctrBase :=
    if campaignType = "brand_awareness" then uniformQ 0.001 0.005 d.uCtrBase
    else if campaignType = "conversion" then uniformQ 0.005 0.02 d.uCtrBase
    else uniformQ 0.003 0.01 d.uCtrBase
  let conversionRateBase :=
    if campaignType = "brand_awareness" then uniformQ 0.0001 0.0005 d.uConvBase
    else if campaignType = "conversion" then uniformQ 0.001 0.01 d.uConvBase
    else uniformQ 0.0005 0.005 d.uConvBase
  let ctrMultiplier : ℚ :=
    if adFormat = "video" then 1.2
    else if adFormat = "interactive" then 1.5
    else 0.8
  let vtrBase : ℚ :=
    if adFormat = "video" then uniformQ 0.6 0.9 d.uVtr
    else if adFormat = "interactive" then uniformQ 0.7 0.95 d.uVtr
    else 1.0
  let cpm := cpmBase * uniformQ 0.8 1.2 d.uCpmMul
  let impressions := ⌊spentAmount / cpm * 1000⌋
  let uniqueViewers := ⌊(impressions : ℚ) * uniformQ 0.6 0.9 d.uViewers⌋
  let ctr := ctrBase * ctrMultiplier * uniformQ 0.8 1.2 d.uCtrMul
  let clicks := ⌊(impressions : ℚ) * ctr⌋
  let conversionRate := conversionRateBase * uniformQ 0.8 1.2 d.uConvMul
  let conversions := ⌊(clicks : ℚ) * conversionRate * 10⌋
  let cpc := if 0 < clicks then spentAmount / (clicks : ℚ) else 0
  let costPerConversion :=
    if 0 < conversions then spentAmount / (conversions : ℚ) else 0
  { impressions := impressions
    unique_viewers := uniqueViewers
    clicks := clicks
    conversions := conversions
    view_through_rate := round4 vtrBase
    click_through_rate := round4 ctr
    conversion_rate := round4 conversionRate
    cost_per_mille := round2 cpm
    cost_per_click := round2 cpc
    cost_per_conversion := round2 costPerConversion }

/-- Month of a day number, in the simplified 30-day-month projection used
only to format the quarter tag of `campaign_name`; no claim depends on
calendar arithmetic. -/
def monthOfDay (dayNumber : ℕ) : ℕ := dayNumber / 30 % 12 + 1

/-- Year of a day number, in the simplified 365-day-year projection used
only to format `campaign_name`. -/
def yearOfDay (dayNumber : ℕ) : ℕ := 1970 + dayNumber / 365

/-- One generated campaign row of `CampaignGenerator.generate_campaign`.
Dates are day numbers (`fake.date_between` yields dates, not datetimes). -/
structure Campaign where
  campaign_id : String
  campaign_name : String
  advertiser_id : String
  advertiser_name : String
  industry : String
  campaign_type : String
  objective : String
  start_date : ℕ
  end_date : ℕ
  status : String
  daily_budget : ℚ
  total_budget : ℚ
  spent_amount : ℚ
  target_age_groups : List String
  target_genders : List String
  target_countries : List String
  target_genres : List String
  target_subscription_tiers : List String
  ad_format : String
  ad_duration_seconds : ℕ
  placement_type : String
  creative_url : String
  landing_page_url : String
  performance : Performance
  created_at : ℕ
  updated_at : ℕ
deriving DecidableEq

/-- Embedding of the body of `CampaignGenerator.generate_campaign` from the
point where `start_date` has been drawn (the Faker call
`fake.date_between("-6m", "today")`); `startDate` is that drawn value and
`today` is `date.today()` as a day number.  Everything else follows the
source line by line. -/
def campaignFromStart (campaignIndex : ℕ) (startDate today : ℕ)
    (d : CampaignDraws) : Option Campaign := do
  let campaignId := "CAMP_" ++ d.uuidCampaign.take 8 ++ "_" ++ pad6 campaignIndex
  let advertiserId := "ADV_" ++ d.uuidAdv.take 8
  let industry ← weightedChoice industriesW d.uIndustry
  let campaignType ← weightedChoice campaignTypesW d.uType
  let objective ← sampleList (objectivesFor campaignType) d.rObjective
  let campaignDuration := 7 + d.rDuration % 84
  let endDate := startDate + campaignDuration
  let status :=
    if endDate < today then "completed"
    else if today < startDate then "scheduled"
    else "active"
  let dailyBudget :=
    if campaignType = "brand_awareness" then uniformQ 1000 10000 d.uBudget
    else if campaignType = "conversion" then uniformQ 2000 20000 d.uBudget
    else uniformQ 500 5000 d.uBudget
  let totalBudget := dailyBudget * campaignDuration
  let sd : ℚ × ℕ :=
    if status = "completed" then
      (totalBudget * uniformQ 0.85 1.0 d.uSpentFull, campaignDuration)
    else if status = "active" then
      (dailyBudget * ((today - startDate : ℕ) : ℚ) * uniformQ 0.9 1.1 d.uSpentActive,
        today - startDate)
    else (0, 0)
  let targetAgeGroups ← selectTargets campaignAgeGroups 0.6 d.uTAge d.rKAge d.rSAge
  let targetGenders ← selectTargets campaignGenders 0.7 d.uTGender d.rKGender d.rSGender
  let targetCountries ← selectTargets campaignCountries 0.5 d.uTCountry d.rKCountry d.rSCountry
  let targetGenres ← selectTargets campaignGenres 0.4 d.uTGenre d.rKGenre d.rSGenre
  let targetTiers ← (if d.uTierShortcut < 0.9 then some ["free_with_ads"]
    else selectTargets campaignTiers 0.5 d.uTTier d.rKTier d.rSTier)
  let adFormat ← weightedChoice adFormatsW d.uFormat
  let adDurationSeconds ← sampleList (adDurationsFor adFormat) d.rAdDur
  let placementType ← weightedChoice placementTypesW d.uPlacement
  let company ← sampleList companyNames d.rCompany
  let advertiserName := company ++ " " ++ industry
  let campaignName := advertiserName ++ " - " ++ objective ++ " - Q" ++
    toString ((monthOfDay startDate - 1) / 3 + 1) ++ " " ++
    toString (yearOfDay startDate)
  let performance :=
    if status = "completed" ∨ status = "active" then
      generatePerformanceMetrics campaignType sd.1 sd.2 adFormat d
    else emptyPerformance
  pure {
    campaign_id := campaignId
    campaign_name := campaignName
    advertiser_id := advertiserId
    advertiser_name := advertiserName
    industry := industry
    campaign_type := campaignType
    objective := objective
    start_date := startDate
    end_date := endDate
    status := status
    daily_budget := round2 dailyBudget
    total_budget := round2 totalBudget
    spent_amount := round2 sd.1
    target_age_groups := targetAgeGroups
    target_genders := targetGenders
    target_countries := targetCountries
    target_genres := targetGenres
    target_subscription_tiers := targetTiers
    ad_format := adFormat
    ad_duration_seconds := adDurationSeconds
    placement_type := placementType
    creative_url := "https://cdn.acmecorp.com/ads/" ++ campaignId ++ "/creative.mp4"
    landing_page_url := "https://track.acmecorp.com/click/" ++ campaignId
    performance := performance
    created_at := dtBetween (startDate - 7) startDate d.rCreated
    updated_at := dtBetween startDate today d.rUpdated }

/-- Embedding of the full `generate_campaign(campaign_index)`: the start
date is drawn by Faker from the last six months (modelled as 180 days). -/
def generateCampaign (campaignIndex : ℕ) (today : ℕ) (d : CampaignDraws) :
    Option Campaign :=
  campaignFromStart campaignIndex (dtBetween (today - 180) today d.rStartDate)
    today d

end AcmeGen

namespace AcmeGen

/-- C8: a generated campaign with status `"scheduled"` (start date after the
generation date) has `spent_amount = 0` and every performance metric equal
to zero. -/
theorem scheduled_campaign_zero_metrics (campaignIndex startDate today : ℕ)
    (d : CampaignDraws) (camp : Campaign)
    (h : campaignFromStart campaignIndex startDate today d = some camp)
    (hs : camp.status = "scheduled") :
    camp.spent_amount = 0 ∧
    camp.performance.impressions = 0 ∧
    camp.performance.unique_viewers = 0 ∧
    camp.performance.clicks = 0 ∧
    camp.performance.conversions = 0 ∧
    camp.performance.view_through_rate = 0 ∧
    camp.performance.click_through_rate = 0 ∧
    camp.performance.conversion_rate = 0 ∧
    camp.performance.cost_per_mille = 0 ∧
    camp.performance.cost_per_click = 0 ∧
    camp.performance.cost_per_conversion = 0 := by
  unfold campaignFromStart at h
  rw [Option.bind_eq_bind, Option.bind_eq_some] at h
  obtain ⟨ind, hind, h⟩ := h
  rw [Option.bind_eq_bind, Option.bind_eq_some] at h
  obtain ⟨ct, hct, h⟩ := h
  rw [Option.bind_eq_bind, Option.bind_eq_some] at h
  obtain ⟨obj, hobj, h⟩ := h
  rw [Option.bind_eq_some] at h
  obtain ⟨tag, htag, h⟩ := h
  rw [Option.bind_eq_some] at h
  obtain ⟨tgen, htgen, h⟩ := h
  rw [Option.bind_eq_some] at h
  obtain ⟨tcty, htcty, h⟩ := h
  rw [Option.bind_eq_some] at h
  obtain ⟨tgnr, htgnr, h⟩ := h
  rw [Option.bind_eq_some] at h
  obtain ⟨ttier, httier, h⟩ := h
  rw [Option.bind_eq_some] at h
  obtain ⟨fmt, hfmt, h⟩ := h
  rw [Option.bind_eq_some] at h
  obtain ⟨adur, hadur, h⟩ := h
  rw [Option.bind_eq_some] at h
  obtain ⟨plc, hplc, h⟩ := h
  rw [Option.bind_eq_some] at h
  obtain ⟨comp, hcomp, h⟩ := h
  rw [show ∀ x : Campaign, (pure x : Option Campaign) = some x from fun _ => rfl] at h
  rw [Option.some.injEq] at h
  subst h
  simp only at hs
  rw [hs]
  rw [if_neg (show ¬("scheduled" : String) = "completed" by decide)]
  rw [if_neg (show ¬("scheduled" : String) = "active" by decide)]
  rw [if_neg (show ¬(("scheduled" : String) = "completed" ∨
    ("scheduled" : String) = "active") by decide)]
  norm_num [round2, roundHalfEven, emptyPerformance]

/-- Fixed fallback campaign record, used only to name the result of a
successful concrete generation. -/
def fallbackCampaign : Campaign :=
  ⟨"", "", "", "", "", "", "", 0, 0, "", 0, 0, 0, [], [], [], [], [], "", 0,
   "", "", "", emptyPerformance, 0, 0⟩

/-- Concrete campaign draws; all uniform draws at zero. -/
def c8Draws : CampaignDraws :=
  { uIndustry := 0, uType := 0, rObjective := 0, rDuration := 0,
    rStartDate := 0, uBudget := 0, uSpentFull := 0, uSpentActive := 0,
    uTAge := 0, rKAge := 0, rSAge := 0, uTGender := 0, rKGender := 0,
    rSGender := 0, uTCountry := 0, rKCountry := 0, rSCountry := 0,
    uTGenre := 0, rKGenre := 0, rSGenre := 0, uTierShortcut := 0, uTTier := 0,
    rKTier := 0, rSTier := 0, uFormat := 0, rAdDur := 0, uPlacement := 0,
    rCompany := 0, uCpmBase := 0, uCtrBase := 0, uConvBase := 0, uVtr := 0,
    uCpmMul := 0, uViewers := 0, uCtrMul := 0, uConvMul := 0, rCreated := 0,
    rUpdated := 0, uuidCampaign := "aaaa1111", uuidAdv := "bbbb2222" }

/-- The campaign generated with start date 110 against generation date 100
(start after today, hence scheduled). -/
def c8Campaign : Campaign :=
  (campaignFromStart 0 110 100 c8Draws).getD fallbackCampaign

/-- Witness for C8 at a concrete input. -/
theorem scheduled_campaign_zero_metrics_witness :
    c8Campaign.spent_amount = 0 ∧
    c8Campaign.performance.impressions = 0 ∧
    c8Campaign.performance.unique_viewers = 0 ∧
    c8Campaign.performance.clicks = 0 ∧
    c8Campaign.performance.conversions = 0 ∧
    c8Campaign.performance.view_through_rate = 0 ∧
    c8Campaign.performance.click_through_rate = 0 ∧
    c8Campaign.performance.conversion_rate = 0 ∧
    c8Campaign.performance.cost_per_mille = 0 ∧
    c8Campaign.performance.cost_per_click = 0 ∧
    c8Campaign.performance.cost_per_conversion = 0 :=
  scheduled_campaign_zero_metrics 0 110 100 c8Draws c8Campaign
    (by
      norm_num [campaignFromStart, c8Campaign, c8Draws, weightedChoice,
        weightedChoiceGo, industriesW, campaignTypesW, objectivesFor,
        sampleList, selectTargets, sampleK, sampleKAux, campaignAgeGroups,
        campaignGenders, campaignCountries, campaignGenres, campaignTiers,
        adFormatsW, adDurationsFor, placementTypesW, companyNames, uniformQ,
        round2, roundHalfEven, generatePerformanceMetrics, emptyPerformance,
        monthOfDay, yearOfDay, dtBetween, pad6, round4]
      simp)
    (by
      norm_num [campaignFromStart, c8Campaign, c8Draws, weightedChoice,
        weightedChoiceGo, industriesW, campaignTypesW, objectivesFor,
        sampleList, selectTargets, sampleK, sampleKAux, campaignAgeGroups,
        campaignGenders, campaignCountries, campaignGenres, campaignTiers,
        adFormatsW, adDurationsFor, placementTypesW, companyNames, uniformQ,
        round2, roundHalfEven, generatePerformanceMetrics, emptyPerformance,
        monthOfDay, yearOfDay, dtBetween, pad6, round4]
      simp)

end AcmeGen

namespace AcmeGen

/-- Finite weighted outcome list: the distribution semantics of a sampling
procedure (outcome paired with its probability mass; masses of a value may
be split over several entries). -/
abbrev Dist (α : Type) : Type := List (α × ℚ)

/-- Degenerate distribution. -/
def dpure (a : α) : Dist α := [(a, 1)]

/-- Sequential composition of sampling steps: weights multiply along each
path. -/
def dbind (dist : Dist α) (f : α → Dist β) : Dist β :=
  dist.bind (fun p => (f p.1).map (fun q => (q.1, p.2 * q.2)))

/-- Distribution of `random.random() < p`. -/
def bern (p : ℚ) : Dist Bool := [(true, p), (false, 1 - p)]

/-- Uniform distribution over the entries of a list. -/
def uniformD (l : List α) : Dist α := l.map (fun a => (a, 1 / (l.length : ℚ)))

/-- All ordered selections of `k` distinct elements of `l`, the support of
`random.sample(l, k)` (which returns selections in selection order, each
equally likely). -/
def kperms [BEq α] : ℕ → List α → List (List α)
  | 0, _ => [[]]
  | k + 1, l => l.bind (fun a => (kperms k (l.erase a)).map (fun s => a :: s))

/-- Distribution of `random.randint(a, b)`. -/
def randintD (a b : ℕ) : Dist ℕ := uniformD (List.range' a (b + 1 - a))

/-- Distribution of `random.sample(l, k)`. -/
def sampleD [BEq α] (l : List α) (k : ℕ) : Dist (List α) :=
  uniformD (kperms k l)

/-- Probability mass that a distribution assigns to a value. -/
def probOf [DecidableEq α] (dist : Dist α) (a : α) : ℚ :=
  ((dist.filter (fun p => decide (p.1 = a))).map Prod.snd).sum

/-- Distribution semantics of `CampaignGenerator._select_targets(options,
all_probability)`: mirror of `selectTargets` with the draws marginalized
out. -/
def selectTargetsDist (options : List String) (allProb : ℚ) :
    Dist (List String) :=
  if options.contains "All" then
    dbind (bern allProb) (fun hit =>
      if hit then dpure ["All"]
      else
        let nonAll := options.filter (fun o => o != "All")
        dbind (randintD 1 (min 3 nonAll.length)) (fun k => sampleD nonAll k))
  else
    let nonAll := options.filter (fun o => o != "All")
    dbind (randintD 1 (min 3 nonAll.length)) (fun k => sampleD nonAll k)

/-- Distribution of `target_subscription_tiers` (line 121 of the campaign
generator): with probability `0.9` the literal `["free_with_ads"]`,
otherwise `_select_targets(subscription_tiers, 0.5)`. -/
def targetTiersDist : Dist (List String) :=
  dbind (bern 0.9) (fun hit =>
    if hit then dpure ["free_with_ads"]
    else selectTargetsDist campaignTiers 0.5)

/-- Distribution of `target_age_groups`:
`_select_targets(age_groups, 0.6)`. -/
def targetAgeGroupsDist : Dist (List String) :=
  selectTargetsDist campaignAgeGroups 0.6

/-- Modelled from the claim: a targeting field is exactly `["All"]` with a
fixed per-field probability `p`, and otherwise a uniformly drawn subset of
1 to 3 of the non-All options of the field. -/
def claimFieldDist (nonAllOptions : List String) (p : ℚ) :
    Dist (List String) :=
  dbind (bern p) (fun hit =>
    if hit then dpure ["All"]
    else dbind (randintD 1 (min 3 nonAllOptions.length))
      (fun k => sampleD nonAllOptions k))

end AcmeGen

namespace AcmeGen

/-- C4 counterexample: no per-field All-probability `p` makes the claimed
form (All with probability `p`, else a uniformly drawn subset of 1 to 3
non-All options) match the distribution the code gives
`target_subscription_tiers`: the claimed form assigns `["free_with_ads"]`
and `["basic"]` equal mass, the code gives them `73/80` and `1/80` (the 0.9
shortcut at line 121 bypasses `_select_targets` with the literal
`["free_with_ads"]`). -/
theorem target_tiers_counterexample :
    ¬ ∃ p : ℚ, ∀ v : List String,
      probOf (claimFieldDist ["free_with_ads", "basic"] p) v =
        probOf targetTiersDist v := by
  rintro ⟨p, hp⟩
  have h1 := hp ["free_with_ads"]
  have h2 := hp ["basic"]
  have c1 : probOf targetTiersDist ["free_with_ads"] = 73/80 := by
    simp [targetTiersDist, selectTargetsDist, campaignTiers, dbind, bern,
      dpure, randintD, uniformD, sampleD, kperms, probOf, List.range']
    norm_num
  have c2 : probOf targetTiersDist ["basic"] = 1/80 := by
    simp [targetTiersDist, selectTargetsDist, campaignTiers, dbind, bern,
      dpure, randintD, uniformD, sampleD, kperms, probOf, List.range']
    norm_num
  have e1 : probOf (claimFieldDist ["free_with_ads", "basic"] p)
      ["free_with_ads"] = (1 - p)/4 := by
    simp [claimFieldDist, dbind, bern, dpure, randintD, uniformD, sampleD,
      kperms, probOf, List.range']
    ring
  have e2 : probOf (claimFieldDist ["free_with_ads", "basic"] p)
      ["basic"] = (1 - p)/4 := by
    simp [claimFieldDist, dbind, bern, dpure, randintD, uniformD, sampleD,
      kperms, probOf, List.range']
    ring
  rw [e1, c1] at h1
  rw [e2, c2] at h2
  linarith

/-- C4 amended: `target_genders` (and likewise countries and genres) does
follow the claimed form with its per-field probability; but
`target_age_groups` is never `["All"]` (its option list has no `"All"`
entry), and `target_subscription_tiers` is `["free_with_ads"]` with
probability `73/80`, `["All"]` with `1/20`, `["basic"]` with `1/80` and each
ordered two-element selection with `1/80`, because of the 0.9 shortcut. -/
theorem targeting_fields_amended :
    probOf targetTiersDist ["free_with_ads"] = 73/80 ∧
    probOf targetTiersDist ["All"] = 1/20 ∧
    probOf targetTiersDist ["basic"] = 1/80 ∧
    probOf targetTiersDist ["free_with_ads", "basic"] = 1/80 ∧
    probOf targetTiersDist ["basic", "free_with_ads"] = 1/80 ∧
    probOf targetAgeGroupsDist ["All"] = 0 ∧
    (∀ v, probOf (selectTargetsDist campaignGenders 0.7) v =
      probOf (claimFieldDist ["Male", "Female"] 0.7) v) := by
  refine ⟨?_, ?_, ?_, ?_, ?_, ?_, ?_⟩
  · simp [targetTiersDist, selectTargetsDist, campaignTiers, dbind, bern,
      dpure, randintD, uniformD, sampleD, kperms, probOf, List.range']
    norm_num
  · simp [targetTiersDist, selectTargetsDist, campaignTiers, dbind, bern,
      dpure, randintD, uniformD, sampleD, kperms, probOf, List.range']
    norm_num
  · simp [targetTiersDist, selectTargetsDist, campaignTiers, dbind, bern,
      dpure, randintD, uniformD, sampleD, kperms, probOf, List.range']
    norm_num
  · simp [targetTiersDist, selectTargetsDist, campaignTiers, dbind, bern,
      dpure, randintD, uniformD, sampleD, kperms, probOf, List.range']
    norm_num
  · simp [targetTiersDist, selectTargetsDist, campaignTiers, dbind, bern,
      dpure, randintD, uniformD, sampleD, kperms, probOf, List.range']
    norm_num
  · simp [targetAgeGroupsDist, selectTargetsDist, campaignAgeGroups, dbind,
      bern, dpure, randintD, uniformD, sampleD, kperms, probOf, List.range']
  · intro v
    simp [selectTargetsDist, claimFieldDist, campaignGenders, dbind, bern,
      dpure, randintD, uniformD, sampleD, kperms, probOf, List.range']

end AcmeGen
